import Mathlib

/-!
Shallow embedding of the document synchronization engine of the
cleancanvas editor: the realtime UPDATE handler, saveContent and
refreshContent of useDocumentSync, the initialization sequence, the
useDebounce hook, and the cursor restoration walk of cursorUtils.
All definitions are direct translations of the TypeScript source.
-/

/-- Mirror of the DocumentUpdateInfo interface of useDocumentSync. -/
structure DocumentUpdateInfo where
  version : Nat
  timestamp : Nat
  clientId : String
deriving DecidableEq, Repr

/-- Mirror of the mutable refs and state of useDocumentSync:
content, lastSaved, documentVersionRef, lastServerTimestampRef,
lastProcessedUpdateRef, lastSavedContentRef, the localStorage backup
slot keyed by the document id, and the session clientId. -/
structure SyncState where
  content : String
  lastSaved : Option Nat
  documentVersion : Nat
  lastServerTimestamp : Nat
  lastProcessedUpdate : Option DocumentUpdateInfo
  lastSavedContent : String
  localBackup : Option String
  clientId : String
deriving DecidableEq, Repr

/-- Mirror of the realtime payload fields read by the handler:
payload.new.content, payload.new.client_id, payload.new.version
(possibly absent, defaulted to 0 via the JS or-operator) and
payload.new.updated_at converted to epoch milliseconds. -/
structure UpdatePayload where
  content : String
  client_id : String
  version : Option Nat
  updated_at : Nat
deriving DecidableEq, Repr

/-- Translation of the JS expression payload.new.version or-else 0. -/
def UpdatePayload.versionOrZero (p : UpdatePayload) : Nat :=
  p.version.getD 0

/-- Translation of the realtime UPDATE handler of useDocumentSync
(lines 112-155): reject self-echo by client id; accept when the
payload timestamp is strictly newer than lastServerTimestampRef,
overwriting content, lastSavedContentRef, lastSaved (guarded by a
truthy updated_at), lastProcessedUpdateRef, lastServerTimestampRef
and documentVersionRef; otherwise reject with no state change.
Returns the new state and whether the update was accepted. -/
def handleRealtimeUpdate (s : SyncState) (p : UpdatePayload) : SyncState × Bool :=
  if p.client_id = s.clientId then
    (s, false)
  else if s.lastServerTimestamp < p.updated_at then
    ({ s with
        content := p.content,
        lastSavedContent := p.content,
        lastSaved := if p.updated_at ≠ 0 then some p.updated_at else s.lastSaved,
        lastProcessedUpdate :=
          some ⟨p.versionOrZero, p.updated_at, p.client_id⟩,
        lastServerTimestamp := p.updated_at,
        documentVersion := p.versionOrZero }, true)
  else
    (s, false)

/-- Delivery of a whole sequence of realtime notifications to the
handler, tracking the last accepted payload (if any). -/
def processSeq : SyncState → Option UpdatePayload → List UpdatePayload → SyncState × Option UpdatePayload
  | s, last, [] => (s, last)
  | s, last, p :: ps =>
      let r := handleRealtimeUpdate s p
      processSeq r.1 (if r.2 then some p else last) ps

/-- Outcome of the backend persist call issued by saveContent:
a row returned without error, an error result, or a thrown exception. -/
inductive PersistOutcome
  | ok
  | err
  | exn
deriving DecidableEq, Repr

/-- Translation of saveContent (lines 237-312): skip when the new
content equals lastSavedContentRef; otherwise optimistically set
content and the localStorage backup, increment documentVersionRef,
issue the update; on success stamp lastSaved, lastSavedContentRef,
lastServerTimestampRef and lastProcessedUpdateRef with the local
clock value; on an error result or a thrown exception revert the
version increment only. Returns the new state and whether a backend
write was issued. -/
def saveContent (s : SyncState) (newContent : String) (nowMs : Nat)
    (outcome : PersistOutcome) : SyncState × Bool :=
  if newContent = s.lastSavedContent then
    (s, false)
  else
    let s1 := { s with
        content := newContent,
        localBackup := some newContent,
        documentVersion := s.documentVersion + 1 }
    let currentVersion := s1.documentVersion
    match outcome with
    | .ok =>
        ({ s1 with
            lastSaved := some nowMs,
            lastSavedContent := newContent,
            lastServerTimestamp := nowMs,
            lastProcessedUpdate :=
              some ⟨currentVersion, nowMs, s.clientId⟩ }, true)
    | .err =>
        ({ s1 with documentVersion := s1.documentVersion - 1 }, true)
    | .exn =>
        ({ s1 with documentVersion := s1.documentVersion - 1 }, true)

/-- Mirror of a fetched document row: content, updated_at (epoch ms),
client_id and version columns. -/
structure DocRow where
  content : String
  updated_at : Nat
  client_id : String
  version : Nat
deriving DecidableEq, Repr

/-- Translation of refreshContent (lines 185-235): on a fetch error
nothing changes; on success, update content, lastSavedContentRef,
lastSaved, lastServerTimestampRef, lastProcessedUpdateRef and
documentVersionRef only when the server content differs from the
local content. -/
def refreshContent (s : SyncState) (result : Option DocRow) : SyncState :=
  match result with
  | none => s
  | some data =>
      if data.content ≠ s.content then
        { s with
            content := data.content,
            lastSavedContent := data.content,
            lastSaved := some data.updated_at,
            lastServerTimestamp := data.updated_at,
            lastProcessedUpdate :=
              some ⟨data.version, data.updated_at, data.client_id⟩,
            documentVersion := data.version }
      else s

/-- Result of the initial fetch: a row, the PGRST116 not-found code,
or any other failure. -/
inductive FetchResult
  | found (row : DocRow)
  | notFound
  | failure
deriving DecidableEq, Repr

/-- Translation of initializeDocument (lines 43-105): on not-found,
insert a fresh row and on success set content and lastSavedContentRef
to the initial content, version 1 and the local clock timestamp; on
any other fetch failure, recover content and lastSavedContentRef from
the localStorage backup when one exists; on a fetched row, set content
and lastSavedContentRef from the row content (falling back to the
initial content when the row content is empty, per the JS or-operator),
take over timestamp and version when truthy, and record the last
processed update. -/
def initializeDocument (s : SyncState) (initialContent : String)
    (r : FetchResult) (insertOk : Bool) (nowMs : Nat)
    (backup : Option String) : SyncState :=
  match r with
  | .notFound =>
      if insertOk then
        { s with
            content := initialContent,
            lastSavedContent := initialContent,
            documentVersion := 1,
            lastServerTimestamp := nowMs }
      else s
  | .failure =>
      match backup with
      | some b => { s with content := b, lastSavedContent := b }
      | none => s
  | .found row =>
      let c := if row.content = "" then initialContent else row.content
      let s1 := { s with content := c, lastSavedContent := c }
      let s2 :=
        if row.updated_at ≠ 0 then
          { s1 with
              lastSaved := some row.updated_at,
              lastServerTimestamp := row.updated_at }
        else s1
      let s3 :=
        if row.version ≠ 0 then { s2 with documentVersion := row.version }
        else s2
      { s3 with
          lastProcessedUpdate :=
            some ⟨s3.documentVersion, s3.lastServerTimestamp,
                  if row.client_id = "" then s.clientId else row.client_id⟩ }

/-- State of the useDebounce hook: the current input value, the
debounced value and the pending trailing-edge timer (scheduled value
and fire deadline), if any. -/
structure DebounceState (T : Type) where
  value : T
  debouncedValue : T
  pendingTimer : Option (T × Nat)
deriving DecidableEq, Repr

/-- Translation of the useDebounce effect body together with its
cleanup: any previously pending timer is cancelled, and a new timer
for the current value is scheduled only when the value differs from
the debounced value (direct equality for strings). -/
def debounceEffect {T : Type} [DecidableEq T] (s : DebounceState T)
    (nowMs delay : Nat) : DebounceState T :=
  if s.value = s.debouncedValue then { s with pendingTimer := none }
  else { s with pendingTimer := some (s.value, nowMs + delay) }

/-- A change of the hook input value: the value updates and the effect
re-runs (cleanup of the old timer, then conditional re-scheduling). -/
def debounceSetValue {T : Type} [DecidableEq T] (s : DebounceState T)
    (v : T) (nowMs delay : Nat) : DebounceState T :=
  debounceEffect { s with value := v } nowMs delay

/-- Firing of a pending timer: setDebouncedValue runs with the value
captured at scheduling time, then the effect re-runs. -/
def debounceFire {T : Type} [DecidableEq T] (s : DebounceState T)
    (nowMs delay : Nat) : DebounceState T :=
  match s.pendingTimer with
  | none => s
  | some (v, _) =>
      debounceEffect { s with debouncedValue := v, pendingTimer := none }
        nowMs delay

/-- Translation of the text-node walk of restoreCursorPosition: scan
the runs in order accumulating currentPos; stop at the first run whose
cumulative length reaches or exceeds the target, returning its index
and the in-run remainder. -/
def findRunAux (target : Nat) : List String → Nat → Nat → Option (Nat × Nat)
  | [], _, _ => none
  | r :: rs, currentPos, idx =>
      if target ≤ currentPos + r.length then
        some (idx, target - currentPos)
      else
        findRunAux target rs (currentPos + r.length) (idx + 1)

/-- The walk started from position 0 and index 0, as in the source. -/
def findRun (target : Nat) (runs : List String) : Option (Nat × Nat) :=
  findRunAux target runs 0 0

/-- Total length of the first n runs. -/
def cumLen (runs : List String) (n : Nat) : Nat :=
  ((runs.take n).map String.length).sum

/-- Translation of restoreCursorPosition (lines 40-108) over an
abstract ordered sequence of text runs: nothing happens for a null
position; otherwise the start and end walks run independently and the
selection is set only when both found a node, else the function
returns failure with no selection change. The returned pair is the
(run index, in-run offset) selection boundary pair. -/
def restoreCursorPosition (runs : List String)
    (pos : Option (Nat × Nat)) : Option ((Nat × Nat) × (Nat × Nat)) :=
  match pos with
  | none => none
  | some (st, en) =>
      match findRun st runs, findRun en runs with
      | some a, some b => some (a, b)
      | _, _ => none

/-! Helper lemmas shared by the claim theorems. -/

theorem handleRealtimeUpdate_self (s : SyncState) (p : UpdatePayload)
    (h : p.client_id = s.clientId) : handleRealtimeUpdate s p = (s, false) := by
  simp [handleRealtimeUpdate, h]

theorem handleRealtimeUpdate_stale (s : SyncState) (p : UpdatePayload)
    (h : p.updated_at ≤ s.lastServerTimestamp) :
    handleRealtimeUpdate s p = (s, false) := by
  unfold handleRealtimeUpdate
  split_ifs with h1 h2 h3 <;> first | rfl | (exfalso; omega)

theorem handleRealtimeUpdate_accept (s : SyncState) (p : UpdatePayload)
    (h : (handleRealtimeUpdate s p).2 = true) :
    (handleRealtimeUpdate s p).1 =
      { s with
          content := p.content,
          lastSavedContent := p.content,
          lastSaved := if p.updated_at ≠ 0 then some p.updated_at else s.lastSaved,
          lastProcessedUpdate :=
            some ⟨p.versionOrZero, p.updated_at, p.client_id⟩,
          lastServerTimestamp := p.updated_at,
          documentVersion := p.versionOrZero } := by
  unfold handleRealtimeUpdate at *
  split_ifs at h ⊢ <;> simp_all

theorem handleRealtimeUpdate_reject (s : SyncState) (p : UpdatePayload)
    (h : (handleRealtimeUpdate s p).2 = false) :
    (handleRealtimeUpdate s p).1 = s := by
  unfold handleRealtimeUpdate at *
  split_ifs at h ⊢ <;> simp_all

/-! Claim C1. -/

/-- C1 counterexample: a remote notification (client "remote" against
local client "local") whose timestamp 100 equals the local
lastServerTimestamp 100 and whose version 7 is strictly greater than
the local documentVersion 5 is nevertheless rejected by the handler:
the code accepts only on a strictly greater timestamp and has no
version tie-break. -/
theorem C1_counterexample :
    ("remote" : String) ≠ "local" ∧
    (UpdatePayload.mk "world" "remote" (some 7) 100).updated_at =
      (SyncState.mk "hello" none 5 100 none "hello" none "local").lastServerTimestamp ∧
    (SyncState.mk "hello" none 5 100 none "hello" none "local").documentVersion <
      (UpdatePayload.mk "world" "remote" (some 7) 100).versionOrZero ∧
    (handleRealtimeUpdate
      (SyncState.mk "hello" none 5 100 none "hello" none "local")
      (UpdatePayload.mk "world" "remote" (some 7) 100)).2 = false := by
  refine ⟨by decide, rfl, by decide, rfl⟩

/-- C1 (amended): for every incoming remote notification whose
clientId differs from the local client id, if the notification's
timestamp equals the clock's lastTimestamp and its version is strictly
greater than the clock's knownVersion, the handler rejects it and
leaves the state unchanged: acceptance requires a strictly greater
timestamp, with no version tie-break at equal timestamps. -/
theorem C1_equal_timestamp_rejected (s : SyncState) (p : UpdatePayload)
    (hc : p.client_id ≠ s.clientId)
    (ht : p.updated_at = s.lastServerTimestamp)
    (hv : s.documentVersion < p.versionOrZero) :
    handleRealtimeUpdate s p = (s, false) :=
  handleRealtimeUpdate_stale s p (le_of_eq ht)

/-- C1 witness: the amended theorem applied at the counterexample
input. -/
theorem C1_witness :
    ((UpdatePayload.mk "world" "remote" (some 7) 100).client_id ≠
        (SyncState.mk "hello" none 5 100 none "hello" none "local").clientId) ∧
    handleRealtimeUpdate
        (SyncState.mk "hello" none 5 100 none "hello" none "local")
        (UpdatePayload.mk "world" "remote" (some 7) 100) =
      ((SyncState.mk "hello" none 5 100 none "hello" none "local"), false) :=
  ⟨by decide,
   C1_equal_timestamp_rejected
     (SyncState.mk "hello" none 5 100 none "hello" none "local")
     (UpdatePayload.mk "world" "remote" (some 7) 100)
     (by decide) rfl (by decide)⟩

/-! Claim C3. -/

/-- C3: a remote notification carrying the session's own client id is
rejected with no state change, regardless of its version and
timestamp. -/
theorem C3_self_echo_rejected (s : SyncState) (p : UpdatePayload)
    (h : p.client_id = s.clientId) :
    handleRealtimeUpdate s p = (s, false) :=
  handleRealtimeUpdate_self s p h

/-- C3 witness: a self-echo with a newer timestamp and a greater
version is still rejected. -/
theorem C3_witness :
    ((UpdatePayload.mk "world" "local" (some 9) 999).client_id =
        (SyncState.mk "hello" none 5 100 none "hello" none "local").clientId) ∧
    handleRealtimeUpdate
        (SyncState.mk "hello" none 5 100 none "hello" none "local")
        (UpdatePayload.mk "world" "local" (some 9) 999) =
      ((SyncState.mk "hello" none 5 100 none "hello" none "local"), false) :=
  ⟨by decide,
   C3_self_echo_rejected
     (SyncState.mk "hello" none 5 100 none "hello" none "local")
     (UpdatePayload.mk "world" "local" (some 9) 999) (by decide)⟩

/-! Claim C4. -/

/-- C4: delivering the same notification twice applies it at most
once: if the first delivery is accepted, the second delivery is
rejected and leaves the whole state (content, version, timestamps)
unchanged. -/
theorem C4_duplicate_delivery_idempotent (s : SyncState) (p : UpdatePayload)
    (h : (handleRealtimeUpdate s p).2 = true) :
    handleRealtimeUpdate (handleRealtimeUpdate s p).1 p =
      ((handleRealtimeUpdate s p).1, false) := by
  apply handleRealtimeUpdate_stale
  rw [handleRealtimeUpdate_accept s p h]

/-- C4 witness: a concrete accepted update whose re-delivery is
rejected. -/
theorem C4_witness :
    (handleRealtimeUpdate
        (SyncState.mk "hello" none 5 100 none "hello" none "local")
        (UpdatePayload.mk "world" "remote" (some 7) 150)).2 = true ∧
    handleRealtimeUpdate
        (handleRealtimeUpdate
          (SyncState.mk "hello" none 5 100 none "hello" none "local")
          (UpdatePayload.mk "world" "remote" (some 7) 150)).1
        (UpdatePayload.mk "world" "remote" (some 7) 150) =
      ((handleRealtimeUpdate
          (SyncState.mk "hello" none 5 100 none "hello" none "local")
          (UpdatePayload.mk "world" "remote" (some 7) 150)).1, false) :=
  ⟨by decide,
   C4_duplicate_delivery_idempotent
     (SyncState.mk "hello" none 5 100 none "hello" none "local")
     (UpdatePayload.mk "world" "remote" (some 7) 150) (by decide)⟩

/-! Claim C5. -/

/-- C5: saveContent of a string equal to the last successfully
persisted content (the lastSavedContentRef register) is a no-op: no
backend write is issued and the whole state, the version included, is
unchanged, whatever the persist outcome would have been. -/
theorem C5_save_unchanged_noop (s : SyncState) (x : String) (nowMs : Nat)
    (o : PersistOutcome) (h : x = s.lastSavedContent) :
    saveContent s x nowMs o = (s, false) := by
  simp [saveContent, h]

/-- C5 witness: saving the already-persisted content issues no
write. -/
theorem C5_witness :
    ("hello" : String) =
      (SyncState.mk "hello" none 5 100 none "hello" none "local").lastSavedContent ∧
    saveContent (SyncState.mk "hello" none 5 100 none "hello" none "local")
        "hello" 500 PersistOutcome.ok =
      ((SyncState.mk "hello" none 5 100 none "hello" none "local"), false) :=
  ⟨rfl,
   C5_save_unchanged_noop
     (SyncState.mk "hello" none 5 100 none "hello" none "local")
     "hello" 500 PersistOutcome.ok rfl⟩

/-! Claim C6. -/

/-- C6: on every failing persist path of saveContent (error result or
thrown exception), the documentVersion after the attempt equals the
documentVersion before it: the pre-write increment is fully
reverted. -/
theorem C6_version_reverted_on_failure (s : SyncState) (x : String)
    (nowMs : Nat) (o : PersistOutcome) (h : o ≠ PersistOutcome.ok) :
    ((saveContent s x nowMs o).1).documentVersion = s.documentVersion := by
  unfold saveContent
  split_ifs with hg
  · rfl
  · cases o with
    | ok => exact absurd rfl h
    | err => simp
    | exn => simp

/-- C6 witness: a failed save of new content leaves the version at its
pre-attempt value. -/
theorem C6_witness :
    PersistOutcome.err ≠ PersistOutcome.ok ∧
    ((saveContent (SyncState.mk "hello" none 5 100 none "hello" none "local")
        "world" 500 PersistOutcome.err).1).documentVersion =
      (SyncState.mk "hello" none 5 100 none "hello" none "local").documentVersion :=
  ⟨by decide,
   C6_version_reverted_on_failure
     (SyncState.mk "hello" none 5 100 none "hello" none "local")
     "world" 500 PersistOutcome.err (by decide)⟩

/-! Claim C2. -/

/-- Invariant carried through a notification sequence: either nothing
was accepted yet and the state is the initial one, or the state's
version and timestamp are those of the last accepted payload. -/
def lastAcceptedInv (s0 s : SyncState) (last : Option UpdatePayload) : Prop :=
  match last with
  | none => s = s0
  | some p =>
      s.documentVersion = p.versionOrZero ∧
      s.lastServerTimestamp = p.updated_at

theorem processSeq_inv (ps : List UpdatePayload) :
    ∀ (s0 s : SyncState) (last : Option UpdatePayload),
      lastAcceptedInv s0 s last →
      lastAcceptedInv s0 (processSeq s last ps).1 (processSeq s last ps).2 := by
  induction ps with
  | nil => intro s0 s last h; exact h
  | cons p ps ih =>
      intro s0 s last h
      simp only [processSeq]
      by_cases hacc : (handleRealtimeUpdate s p).2 = true
      · have hst := handleRealtimeUpdate_accept s p hacc
        apply ih
        simp only [hacc, if_true, lastAcceptedInv, hst]
        exact ⟨trivial, trivial⟩
      · have hb : (handleRealtimeUpdate s p).2 = false := by
          cases hx : (handleRealtimeUpdate s p).2 <;> simp_all
        have hst := handleRealtimeUpdate_reject s p hb
        apply ih
        simpa only [hb, if_false, hst] using h

/-- C2: after any sequence of remote notifications, the local version
and timestamp equal those of the last accepted notification (and the
state is untouched when none was accepted); moreover any notification
whose timestamp is strictly older than the current lastServerTimestamp
is rejected with no state change, so an accepted update is never
overwritten by an older one. -/
theorem C2_sequence_tracks_last_accepted (s : SyncState) (ps : List UpdatePayload) :
    (∀ p, (processSeq s none ps).2 = some p →
        (processSeq s none ps).1.documentVersion = p.versionOrZero ∧
        (processSeq s none ps).1.lastServerTimestamp = p.updated_at) ∧
    ((processSeq s none ps).2 = none → (processSeq s none ps).1 = s) ∧
    (∀ (t : SyncState) (q : UpdatePayload),
        q.updated_at < t.lastServerTimestamp →
        handleRealtimeUpdate t q = (t, false)) := by
  have hinv := processSeq_inv ps s s none (by simp [lastAcceptedInv])
  refine ⟨?_, ?_, ?_⟩
  · intro p hp
    rw [hp] at hinv
    exact hinv
  · intro hp
    rw [hp] at hinv
    exact hinv
  · intro t q h
    exact handleRealtimeUpdate_stale t q (le_of_lt h)

/-- C2 witness: after an accepted update (version 7, timestamp 150)
followed by a strictly older one (timestamp 120, rejected), the final
version and timestamp are those of the first, accepted, update. -/
theorem C2_witness :
    (processSeq (SyncState.mk "hello" none 5 100 none "hello" none "local") none
        [UpdatePayload.mk "world" "remote" (some 7) 150,
         UpdatePayload.mk "old" "third" (some 9) 120]).2 =
      some (UpdatePayload.mk "world" "remote" (some 7) 150) ∧
    (processSeq (SyncState.mk "hello" none 5 100 none "hello" none "local") none
        [UpdatePayload.mk "world" "remote" (some 7) 150,
         UpdatePayload.mk "old" "third" (some 9) 120]).1.documentVersion =
      (UpdatePayload.mk "world" "remote" (some 7) 150).versionOrZero ∧
    (processSeq (SyncState.mk "hello" none 5 100 none "hello" none "local") none
        [UpdatePayload.mk "world" "remote" (some 7) 150,
         UpdatePayload.mk "old" "third" (some 9) 120]).1.lastServerTimestamp =
      (UpdatePayload.mk "world" "remote" (some 7) 150).updated_at :=
  ⟨by decide,
   (C2_sequence_tracks_last_accepted
      (SyncState.mk "hello" none 5 100 none "hello" none "local")
      [UpdatePayload.mk "world" "remote" (some 7) 150,
       UpdatePayload.mk "old" "third" (some 9) 120]).1
     (UpdatePayload.mk "world" "remote" (some 7) 150) (by decide)⟩

/-! Claim C7. -/

/-- C7 counterexample: input starts at "a" (debounced "a"), changes to
"b" (a trailing-edge timer becomes pending), then reverts to "a"
before the timer fires. The effect cleanup cancels the pending timer
and, because the reverted value equals the debounced value, schedules
no new one: no pending emission remains, and a timer tick changes
nothing. The claimed still-firing pending emission does not exist. -/
theorem C7_counterexample :
    (debounceSetValue (DebounceState.mk "a" "a" (none : Option (String × Nat)))
        "b" 0 5000).pendingTimer = some ("b", 5000) ∧
    (debounceSetValue
        (debounceSetValue (DebounceState.mk "a" "a" none) "b" 0 5000)
        "a" 100 5000).pendingTimer = none ∧
    debounceFire
        (debounceSetValue
          (debounceSetValue (DebounceState.mk "a" "a" none) "b" 0 5000)
          "a" 100 5000) 5001 5000 =
      debounceSetValue
        (debounceSetValue (DebounceState.mk "a" "a" none) "b" 0 5000)
        "a" 100 5000 := by
  refine ⟨rfl, rfl, rfl⟩

/-- C7 (amended): if, while a trailing-edge timer is pending for a new
value, the input reverts to the last-emitted (debounced) value before
the timer fires, the pending timer is cancelled and no new timer is
scheduled — the pending emission is suppressed rather than fired — and
the debounced value remains the last-emitted value. -/
theorem C7_revert_suppresses_pending_emission (s : DebounceState String)
    (v : String) (t0 t1 d : Nat) (hv : v ≠ s.debouncedValue) :
    (debounceSetValue s v t0 d).pendingTimer = some (v, t0 + d) ∧
    (debounceSetValue (debounceSetValue s v t0 d) s.debouncedValue t1 d).pendingTimer
      = none ∧
    (debounceSetValue (debounceSetValue s v t0 d) s.debouncedValue t1 d).debouncedValue
      = s.debouncedValue := by
  unfold debounceSetValue debounceEffect
  simp [hv]

/-- C7 witness: the amended theorem applied at the counterexample
input. -/
theorem C7_witness :
    ("b" : String) ≠ (DebounceState.mk "a" "a" (none : Option (String × Nat))).debouncedValue ∧
    (debounceSetValue
        (debounceSetValue (DebounceState.mk "a" "a" none) "b" 0 5000)
        (DebounceState.mk "a" "a" (none : Option (String × Nat))).debouncedValue
        100 5000).pendingTimer = none :=
  ⟨by decide,
   (C7_revert_suppresses_pending_emission
      (DebounceState.mk "a" "a" none) "b" 0 100 5000 (by decide)).2.1⟩

/-! Claim C8. -/

theorem cumLen_zero (runs : List String) : cumLen runs 0 = 0 := by
  simp [cumLen]

theorem cumLen_cons (r : String) (rs : List String) (n : Nat) :
    cumLen (r :: rs) (n + 1) = r.length + cumLen rs n := by
  simp [cumLen, List.take_succ_cons]

theorem findRunAux_some (runs : List String) :
    ∀ (target c i k o : Nat), findRunAux target runs c i = some (k, o) →
      ∃ m, k = i + m ∧ m < runs.length ∧
        target ≤ c + cumLen runs (m + 1) ∧
        (∀ j, j < m → c + cumLen runs (j + 1) < target) ∧
        o = target - (c + cumLen runs m) := by
  induction runs with
  | nil =>
      intro target c i k o h
      simp [findRunAux] at h
  | cons r rs ih =>
      intro target c i k o h
      simp only [findRunAux] at h
      split_ifs at h with hle
      · obtain ⟨hk, ho⟩ : i = k ∧ target - c = o := by
          simpa using h
        refine ⟨0, by omega, by simp, ?_, ?_, ?_⟩
        · rw [cumLen_cons, cumLen_zero]
          omega
        · intro j hj; omega
        · rw [cumLen_zero]; omega
      · obtain ⟨m, hk, hm, hle2, hlt, ho⟩ := ih target (c + r.length) (i + 1) k o h
        refine ⟨m + 1, by omega, by simp; omega, ?_, ?_, ?_⟩
        · rw [cumLen_cons]
          omega
        · intro j hj
          match j with
          | 0 =>
              rw [cumLen_cons, cumLen_zero]
              omega
          | jj + 1 =>
              rw [cumLen_cons]
              have := hlt jj (by omega)
              omega
        · rw [cumLen_cons]
          omega

theorem findRunAux_none (runs : List String) :
    ∀ (target c i : Nat), c + cumLen runs runs.length < target →
      findRunAux target runs c i = none := by
  induction runs with
  | nil => intro target c i h; rfl
  | cons r rs ih =>
      intro target c i h
      rw [List.length_cons, cumLen_cons] at h
      simp only [findRunAux]
      rw [if_neg (by omega)]
      exact ih target (c + r.length) (i + 1) (by omega)

/-- C8: the restoration walk picks, independently for the start and
end offsets, the first run whose cumulative length reaches or exceeds
the target, with in-run offset the target minus the cumulative length
of the preceding runs; when the total content length is short of the
target no run is found, and whenever either walk finds no run the
restoration returns failure, setting no selection. -/
theorem C8_cursor_restoration (target : Nat) (runs : List String) :
    (∀ k o, findRun target runs = some (k, o) →
        k < runs.length ∧ target ≤ cumLen runs (k + 1) ∧
        (∀ j, j < k → cumLen runs (j + 1) < target) ∧
        o = target - cumLen runs k) ∧
    (cumLen runs runs.length < target → findRun target runs = none) ∧
    (∀ st en a b, restoreCursorPosition runs (some (st, en)) = some (a, b) ↔
        (findRun st runs = some a ∧ findRun en runs = some b)) ∧
    (∀ st en, (findRun st runs = none ∨ findRun en runs = none) →
        restoreCursorPosition runs (some (st, en)) = none) := by
  refine ⟨?_, ?_, ?_, ?_⟩
  · intro k o h
    obtain ⟨m, hk, hm, hle, hlt, ho⟩ := findRunAux_some runs target 0 0 k o h
    have hkm : k = m := by omega
    subst hkm
    exact ⟨hm, by omega, fun j hj => by have := hlt j hj; omega, by omega⟩
  · intro h
    exact findRunAux_none runs target 0 0 (by omega)
  · intro st en a b
    have hdef : restoreCursorPosition runs (some (st, en)) =
        match findRun st runs, findRun en runs with
        | some x, some y => some (x, y)
        | _, _ => none := rfl
    rw [hdef]
    cases hs : findRun st runs <;> cases he : findRun en runs <;> simp_all
  · intro st en h
    have hdef : restoreCursorPosition runs (some (st, en)) =
        match findRun st runs, findRun en runs with
        | some x, some y => some (x, y)
        | _, _ => none := rfl
    rw [hdef]
    cases hs : findRun st runs <;> cases he : findRun en runs <;> simp_all

/-- C8 witness: on runs "hello", " ", "world" the offset 7 lands in
run 2 at in-run offset 1, and an offset past the total length 11
finds no run, so restoration fails without selecting. -/
theorem C8_witness :
    (findRun 7 ["hello", " ", "world"] = some (2, 1) →
      2 < (["hello", " ", "world"] : List String).length ∧
      7 ≤ cumLen ["hello", " ", "world"] 3 ∧
      (∀ j, j < 2 → cumLen ["hello", " ", "world"] (j + 1) < 7) ∧
      1 = 7 - cumLen ["hello", " ", "world"] 2) ∧
    (findRun 7 ["hello", " ", "world"] = some (2, 1)) ∧
    (findRun 12 ["hello", " ", "world"] = none ∨
      findRun 12 ["hello", " ", "world"] = none) ∧
    restoreCursorPosition ["hello", " ", "world"] (some (12, 12)) = none :=
  ⟨(C8_cursor_restoration 7 ["hello", " ", "world"]).1 2 1,
   by decide,
   Or.inl (by decide),
   (C8_cursor_restoration 12 ["hello", " ", "world"]).2.2.2 12 12
     (Or.inl (by decide))⟩

/-! Claim C9. -/

/-- C9: every operation that applies content locally — an accepted
remote update, a successful save, a content-changing refresh, and
each content-applying initialization branch (loaded row, created row,
local-backup recovery) — also sets the lastSavedContentRef register
to that same content; consequently, immediately after an accepted
remote update delivering content c, saveContent c issues no backend
write and changes nothing. -/
theorem C9_content_application_updates_register :
    (∀ (s : SyncState) (p : UpdatePayload), (handleRealtimeUpdate s p).2 = true →
        (handleRealtimeUpdate s p).1.content = p.content ∧
        (handleRealtimeUpdate s p).1.lastSavedContent = p.content) ∧
    (∀ (s : SyncState) (x : String) (nowMs : Nat),
        (saveContent s x nowMs PersistOutcome.ok).2 = true →
        (saveContent s x nowMs PersistOutcome.ok).1.content = x ∧
        (saveContent s x nowMs PersistOutcome.ok).1.lastSavedContent = x) ∧
    (∀ (s : SyncState) (row : DocRow), row.content ≠ s.content →
        (refreshContent s (some row)).content = row.content ∧
        (refreshContent s (some row)).lastSavedContent = row.content) ∧
    (∀ (s : SyncState) (ic : String) (row : DocRow) (b : Bool)
        (nowMs : Nat) (bk : Option String),
        (initializeDocument s ic (FetchResult.found row) b nowMs bk).lastSavedContent =
          (initializeDocument s ic (FetchResult.found row) b nowMs bk).content) ∧
    (∀ (s : SyncState) (ic : String) (nowMs : Nat) (bk : Option String),
        (initializeDocument s ic FetchResult.notFound true nowMs bk).content = ic ∧
        (initializeDocument s ic FetchResult.notFound true nowMs bk).lastSavedContent = ic) ∧
    (∀ (s : SyncState) (ic : String) (b : Bool) (nowMs : Nat) (bk : String),
        (initializeDocument s ic FetchResult.failure b nowMs (some bk)).content = bk ∧
        (initializeDocument s ic FetchResult.failure b nowMs (some bk)).lastSavedContent = bk) ∧
    (∀ (s : SyncState) (p : UpdatePayload) (nowMs : Nat) (o : PersistOutcome),
        (handleRealtimeUpdate s p).2 = true →
        saveContent (handleRealtimeUpdate s p).1 p.content nowMs o =
          ((handleRealtimeUpdate s p).1, false)) := by
  refine ⟨?_, ?_, ?_, ?_, ?_, ?_, ?_⟩
  · intro s p h
    rw [handleRealtimeUpdate_accept s p h]
    exact ⟨rfl, rfl⟩
  · intro s x nowMs h
    unfold saveContent at h ⊢
    split_ifs at h ⊢
    exact ⟨rfl, rfl⟩
  · intro s row hne
    simp only [refreshContent]
    rw [if_pos hne]
    exact ⟨rfl, rfl⟩
  · intro s ic row b nowMs bk
    simp only [initializeDocument]
    split_ifs <;> rfl
  · intro s ic nowMs bk
    simp only [initializeDocument]
    rw [if_pos trivial]
    exact ⟨rfl, rfl⟩
  · intro s ic b nowMs bk
    exact ⟨rfl, rfl⟩
  · intro s p nowMs o h
    have hs := handleRealtimeUpdate_accept s p h
    have hguard : p.content = (handleRealtimeUpdate s p).1.lastSavedContent := by
      rw [hs]
    unfold saveContent
    rw [if_pos hguard]

/-- C9 witness: after a concrete accepted remote update delivering
content "world", saving "world" is a no-op with no backend write. -/
theorem C9_witness :
    (handleRealtimeUpdate
        (SyncState.mk "hello" none 5 100 none "hello" none "local")
        (UpdatePayload.mk "world" "remote" (some 7) 150)).2 = true ∧
    saveContent
        (handleRealtimeUpdate
          (SyncState.mk "hello" none 5 100 none "hello" none "local")
          (UpdatePayload.mk "world" "remote" (some 7) 150)).1
        (UpdatePayload.mk "world" "remote" (some 7) 150).content 500 PersistOutcome.ok =
      ((handleRealtimeUpdate
          (SyncState.mk "hello" none 5 100 none "hello" none "local")
          (UpdatePayload.mk "world" "remote" (some 7) 150)).1, false) :=
  ⟨by decide,
   C9_content_application_updates_register.2.2.2.2.2.2
     (SyncState.mk "hello" none 5 100 none "hello" none "local")
     (UpdatePayload.mk "world" "remote" (some 7) 150) 500 PersistOutcome.ok
     (by decide)⟩

/-! Claim C10. -/

/-- C10: on a failed saveContent of x, only the version counter is
rolled back: the displayed content and the localStorage backup still
hold x, while lastSavedContentRef, lastServerTimestampRef,
lastProcessedUpdateRef and lastSaved are unchanged from before the
call; hence a subsequent saveContent of x is not skipped by the no-op
guard and issues a backend write again. -/
theorem C10_failed_save_rolls_back_only_version (s : SyncState) (x : String)
    (nowMs nowMs2 : Nat) (o o2 : PersistOutcome)
    (hx : x ≠ s.lastSavedContent) (ho : o ≠ PersistOutcome.ok) :
    ((saveContent s x nowMs o).1).content = x ∧
    ((saveContent s x nowMs o).1).localBackup = some x ∧
    ((saveContent s x nowMs o).1).documentVersion = s.documentVersion ∧
    ((saveContent s x nowMs o).1).lastSavedContent = s.lastSavedContent ∧
    ((saveContent s x nowMs o).1).lastServerTimestamp = s.lastServerTimestamp ∧
    ((saveContent s x nowMs o).1).lastProcessedUpdate = s.lastProcessedUpdate ∧
    ((saveContent s x nowMs o).1).lastSaved = s.lastSaved ∧
    (saveContent (saveContent s x nowMs o).1 x nowMs2 o2).2 = true := by
  unfold saveContent
  rw [if_neg hx]
  cases o with
  | ok => exact absurd rfl ho
  | err => cases o2 <;> simp_all [saveContent]
  | exn => cases o2 <;> simp_all [saveContent]

/-- C10 witness: a concrete failed save of "world" keeps content and
backup at "world", restores the version, leaves the registers
untouched, and a retry issues a write. -/
theorem C10_witness :
    ("world" : String) ≠
      (SyncState.mk "hello" none 5 100 none "hello" none "local").lastSavedContent ∧
    ((saveContent (SyncState.mk "hello" none 5 100 none "hello" none "local")
        "world" 500 PersistOutcome.err).1).content = "world" ∧
    ((saveContent (SyncState.mk "hello" none 5 100 none "hello" none "local")
        "world" 500 PersistOutcome.err).1).documentVersion = 5 ∧
    (saveContent
        (saveContent (SyncState.mk "hello" none 5 100 none "hello" none "local")
          "world" 500 PersistOutcome.err).1
        "world" 600 PersistOutcome.ok).2 = true :=
  ⟨by decide,
   (C10_failed_save_rolls_back_only_version
      (SyncState.mk "hello" none 5 100 none "hello" none "local")
      "world" 500 600 PersistOutcome.err PersistOutcome.ok
      (by decide) (by decide)).1,
   (C10_failed_save_rolls_back_only_version
      (SyncState.mk "hello" none 5 100 none "hello" none "local")
      "world" 500 600 PersistOutcome.err PersistOutcome.ok
      (by decide) (by decide)).2.2.1,
   (C10_failed_save_rolls_back_only_version
      (SyncState.mk "hello" none 5 100 none "hello" none "local")
      "world" 500 600 PersistOutcome.err PersistOutcome.ok
      (by decide) (by decide)).2.2.2.2.2.2.2⟩
